import Mathlib

/-
Verification of the Chouten CLI script host (src/main.rs).

The program is a host process that loads a plugin script into an embedded
V8 runtime, injects two host capabilities (a console.log-shaped logger and
a request capability), dispatches one of six CLI verbs to a generated
method-call expression, and prints the resolved result on standard output.

The shallow embedding below translates the pure/deterministic parts of
src/main.rs into Lean. External collaborators are abstracted as inputs:
the HTTP transport (reqwest) is an oracle of type
String -> String -> TransportOutcome, and the V8 promise-resolution step
is represented by its outcome, an Option String (the string extracted from
the completion value, when one can be extracted). Rust println writes to
the standard output stream; this is modeled with the HostStream type. A Rust
panic or process::exit is modeled as the error constructor of an Except.
-/

/-- The single-quote character U+0027 as a one-character string. The Rust
source splices URLs between two of these characters. -/
def squote : String := (Char.ofNat 39).toString

/-- The usage message returned on argument-validation failure
(src/main.rs lines 318 and 324). -/
def usageMsg : String := "usage: chouten <filename> <option> <url?>"

/-- CLI parameters, struct Params (src/main.rs lines 309-313). -/
structure Params where
  filename : String
  option : String
  url : Option String
deriving DecidableEq, Repr

/-- Params::new (src/main.rs lines 316-334): rejects fewer than 3 args,
and rejects a non-discover option unless exactly 4 args are given.
Indexing args[1] and args[2], guarded by the length check in the source,
is rendered total with getD. url is args.get(3). -/
def Params.new (args : List String) : Except String Params :=
  if args.length < 3 then Except.error usageMsg
  else if ((args.get? 2).getD ("")) != ("--discover") && args.length != 4 then
    Except.error usageMsg
  else
    Except.ok
      { filename := (args.get? 1).getD ("")
        option := (args.get? 2).getD ("")
        url := args.get? 3 }

/-- Outcome of main (src/main.rs lines 8-17): on a Params error the
process prints the message and exits with code 1; otherwise run is
entered with the parsed Params. -/
inductive MainOutcome where
  | exited (code : Nat) (message : String)
  | ran (p : Params)
deriving DecidableEq, Repr

/-- Model of main (src/main.rs lines 8-17). -/
def mainModel (args : List String) : MainOutcome :=
  match Params.new args with
  | Except.error e => MainOutcome.exited 1 e
  | Except.ok p => MainOutcome.ran p

/-- The successive host-side steps of run (src/main.rs lines 19-151),
in source order. -/
inductive RunStep where
  | readPluginFile
  | initializeRuntime
  | installConsoleLog
  | compilePluginScript
  | runPluginScript
  | installRequest
  | compileInstantiation
  | runInstantiation
  | buildCallExpr
  | compileWrapper
  | runWrapper
  | resolveAndPrint
deriving DecidableEq, Repr

/-- The order in which run performs its steps, read off the statement
order of src/main.rs lines 19-151: file read (20), V8 init (22-29),
console.log injection (31-41), plugin script compile (43-44) and run (45),
request injection (49-57), instantiation compile (59-60) and run (61),
call-expression construction (63-116), wrapper compile (118-136) and
run (137), promise resolution and print (138-150). -/
def runSequence : List RunStep :=
  [RunStep.readPluginFile, RunStep.initializeRuntime, RunStep.installConsoleLog,
   RunStep.compilePluginScript, RunStep.runPluginScript, RunStep.installRequest,
   RunStep.compileInstantiation, RunStep.runInstantiation, RunStep.buildCallExpr,
   RunStep.compileWrapper, RunStep.runWrapper, RunStep.resolveAndPrint]

/-- Position of a step in the run sequence. -/
def stepIndex (s : RunStep) : Nat := List.indexOf s runSequence

/-- The verb dispatch of run (src/main.rs lines 63-116): maps the option
and optional URL to the generated call expression, or to the printed
error message of the exit(1) branch. The Rust format string wraps the
URL in single quotes; squote is that quote character. -/
def dispatch (p : Params) : Except String String :=
  match p.option with
  | "--discover" => Except.ok ("discover()")
  | "--search" =>
    match p.url with
    | some value => Except.ok (("search(") ++ squote ++ value ++ squote ++ (")"))
    | none => Except.error ("URL is required for --search option.")
  | "--info" =>
    match p.url with
    | some value => Except.ok (("info(") ++ squote ++ value ++ squote ++ (")"))
    | none => Except.error ("URL is required for --info option.")
  | "--media" =>
    match p.url with
    | some value => Except.ok (("media(") ++ squote ++ value ++ squote ++ (")"))
    | none => Except.error ("URL is required for --media option.")
  | "--servers" =>
    match p.url with
    | some value => Except.ok (("servers(") ++ squote ++ value ++ squote ++ (")"))
    | none => Except.error ("URL is required for --servers option.")
  | "--sources" =>
    match p.url with
    | some value => Except.ok (("sources(") ++ squote ++ value ++ squote ++ (")"))
    | none => Except.error ("URL is required for --sources option.")
  | _ => Except.error ("No option found.")

/-- The printed error messages of the five missing-URL exit branches in
the verb dispatch (src/main.rs lines 72, 81, 90, 99, 108). -/
def urlRequiredMessages : List String :=
  ["URL is required for --search option.",
   "URL is required for --info option.",
   "URL is required for --media option.",
   "URL is required for --servers option.",
   "URL is required for --sources option."]

/-- Modelled from the spec, section 4.4: the verb-to-method-name table.
Spec-side definition used to compare the generated call expression of
dispatch against the specified method names for the five URL verbs. -/
def specMethodName (option : String) : Option String :=
  match option with
  | "--search" => some ("search")
  | "--info" => some ("info")
  | "--media" => some ("media")
  | "--servers" => some ("servers")
  | "--sources" => some ("sources")
  | _ => none

/-- The diagnostic printed when the completion value cannot be read as a
string (src/main.rs line 149). -/
def unresolvedDiagnostic : String := "Promise did not resolve to a value."

/-- The result-extraction step (src/main.rs lines 144-150): the lines it
prints on standard output, as a function of the outcome of the host-side
to_string conversion of the completion value. When a string was
extracted, it is printed; otherwise the diagnostic is printed. -/
def result_extraction_stdout (maybe_value : Option String) : List String :=
  match maybe_value with
  | some value => [value]
  | none => [unresolvedDiagnostic]

/-- Output streams of the host process. The Rust println macro writes to
stdout. -/
inductive HostStream where
  | stdout
  | stderr
deriving DecidableEq, Repr

/-- log_handler (src/main.rs lines 153-164): the first argument, coerced
to text by the runtime, is printed on standard output behind the prefix
written at line 163. The ReturnValue is left untouched, so no value is
returned to the script; this is the none in the second component. -/
def log_handler (message : String) : (HostStream × String) × Option String :=
  ((HostStream.stdout, ("JavaScript console.log: ") ++ message), none)

/-- Outcome of one call of the HTTP transport (reqwest), abstracted:
either a response with status, header list in transport order, and a
body (none when reading the body text fails), or a transport error. -/
inductive TransportOutcome where
  | success (status : Nat) (headers : List (String × String)) (respBody : Option String)
  | failure (message : String)
deriving DecidableEq, Repr

/-- struct Response (src/main.rs lines 237-243). The headers HashMap is
modeled as a lookup function with unique keys by construction. -/
structure Response where
  status_code : Int
  body : String
  content_type : String
  headers : String → Option String

/-- An empty headers map (HashMap::new at src/main.rs line 232). -/
def emptyHeaders : String → Option String := fun _ => none

/-- HashMap::insert (src/main.rs line 213): maps the inserted key to the
new value and leaves every other key unchanged. -/
def insertHeader (m : String → Option String) (key value : String) :
    String → Option String :=
  fun q => if q == key then some value else m q

/-- The header-collection loop (src/main.rs lines 209-214): inserts every
transport header pair in order into an initially empty map. -/
def buildHeaders (hdrs : List (String × String)) : String → Option String :=
  hdrs.foldl (fun m p => insertHeader m p.1 p.2) emptyHeaders

/-- The content-type extraction (src/main.rs lines 202-207): the value of
the first content-type header, or the empty string when absent. -/
def contentTypeOf (hdrs : List (String × String)) : String :=
  ((hdrs.find? (fun p => p.1 == ("content-type"))).map (fun p => p.2)).getD ("")

/-- Construction of the Response value from one transport outcome
(src/main.rs lines 199-235): the success branch copies the status code,
reads content type and headers, and defaults a failed body read to the
empty string; the failure branch builds the degraded response of lines
228-233. -/
def buildResponse : TransportOutcome → Response
  | TransportOutcome.success status hdrs respBody =>
    { status_code := Int.ofNat status
      body := respBody.getD ("")
      content_type := contentTypeOf hdrs
      headers := buildHeaders hdrs }
  | TransportOutcome.failure _ =>
    { status_code := 500
      body := ("Internal Server Error")
      content_type := ("text/plain")
      headers := emptyHeaders }

/-- A fatal host-side abort (the panic at src/main.rs line 196). -/
inductive HostAbort where
  | unsupportedMethod (method : String)
deriving DecidableEq, Repr

/-- send_request_async (src/main.rs lines 188-236): dispatches on the
method string, performing the transport call for GET and POST and
panicking on any other method. The transport oracle t receives the
method and the URL. -/
def send_request_async (url method : String)
    (t : String → String → TransportOutcome) : Except HostAbort Response :=
  if method = ("GET") then Except.ok (buildResponse (t method url))
  else if method = ("POST") then Except.ok (buildResponse (t method url))
  else Except.error (HostAbort.unsupportedMethod method)

/-- The lines send_request_async prints on standard output: the failure
branch prints the request-failed line (src/main.rs line 227) before
building the degraded response; the panic branch prints nothing before
aborting. -/
def send_request_async_stdout (url method : String)
    (t : String → String → TransportOutcome) : List String :=
  if method = ("GET") then
    match t method url with
    | TransportOutcome.failure e => [("Request failed: ") ++ e]
    | _ => []
  else if method = ("POST") then
    match t method url with
    | TransportOutcome.failure e => [("Request failed: ") ++ e]
    | _ => []
  else []

/-- The lines send_request_handler prints on standard output
(src/main.rs lines 166-186): the fixed line of line 171, followed by
whatever send_request_async prints. -/
def send_request_handler_stdout (url method : String)
    (t : String → String → TransportOutcome) : List String :=
  ("request handler called.") :: send_request_async_stdout url method t

/-- Modelled from the spec, section 3: the last value seen for a header
key in a list of transport header pairs. Spec-side definition used to
compare the headers map built by the source loop against the specified
last-write-wins behavior. -/
def specLastValueSeen : List (String × String) → String → Option String
  | [], _ => none
  | p :: t, k =>
    match specLastValueSeen t k with
    | some v => some v
    | none => if p.1 == k then some p.2 else none

/-- C2 counterexample: the request capability is not installed before the
plugin script is compiled; in the run sequence of src/main.rs the request
injection (lines 49-57) comes after the plugin script compilation
(line 44), so the claim that both capabilities are installed before the
script is compiled and run is false. -/
theorem request_not_installed_before_plugin_compile :
    ¬ (stepIndex RunStep.installRequest < stepIndex RunStep.compilePluginScript) := by
  decide

/-- C2 amended: the console.log capability is installed before the plugin
script is compiled and run, but the request capability is installed only
after the plugin script has run, though before the instantiation
statement is compiled and run. -/
theorem capability_install_order :
    stepIndex RunStep.installConsoleLog < stepIndex RunStep.compilePluginScript ∧
    stepIndex RunStep.runPluginScript < stepIndex RunStep.installRequest ∧
    stepIndex RunStep.installRequest < stepIndex RunStep.compileInstantiation := by
  decide

/-- C5: for every transport method string other than GET and POST, the
request capability aborts fatally (the panic at src/main.rs line 196); it
never returns a response of any kind. -/
theorem unsupported_method_aborts (url method : String)
    (t : String → String → TransportOutcome)
    (h1 : method ≠ ("GET")) (h2 : method ≠ ("POST")) :
    send_request_async url method t =
      Except.error (HostAbort.unsupportedMethod method) := by
  unfold send_request_async
  rw [if_neg h1, if_neg h2]

/-- Witness for C5: the DELETE method aborts the process. -/
theorem unsupported_method_aborts_witness :
    send_request_async ("http://example.com") ("DELETE")
        (fun _ _ => TransportOutcome.failure ("unused")) =
      Except.error (HostAbort.unsupportedMethod ("DELETE")) :=
  unsupported_method_aborts ("http://example.com") ("DELETE")
    (fun _ _ => TransportOutcome.failure ("unused")) (by decide) (by decide)

/-- C9 counterexample: the logging capability writes to standard output,
not to the standard diagnostic stream: log_handler uses the Rust println
macro (src/main.rs line 163), which writes to stdout. -/
theorem log_handler_writes_stdout :
    (log_handler ("hello")).1.1 = HostStream.stdout ∧
    HostStream.stdout ≠ HostStream.stderr := by
  exact ⟨rfl, by decide⟩

/-- C9 amended: for every value passed to the injected logging
capability, the capability coerces the value to text and writes that
text, behind the fixed prefix of src/main.rs line 163, to standard
output (not the standard diagnostic stream), and returns no value. -/
theorem log_handler_effect (m : String) :
    log_handler m = ((HostStream.stdout, ("JavaScript console.log: ") ++ m), none) := rfl

/-- C3 counterexample: on a transport failure the request capability does
return a normal response with status 500 and the expected body, but its
content_type is the string of src/main.rs line 231, not the empty
string, so the claim as stated is false. -/
theorem transport_failure_content_type_not_empty :
    send_request_async ("http://example.com") ("GET")
        (fun _ _ => TransportOutcome.failure ("dns error")) =
      Except.ok (buildResponse (TransportOutcome.failure ("dns error"))) ∧
    (buildResponse (TransportOutcome.failure ("dns error"))).content_type ≠ ("") := by
  exact ⟨rfl, by decide⟩

/-- C3 amended: for every transport failure during a GET or POST request,
the request capability returns a normal Response value with status code
500, body Internal Server Error, content type text/plain, and an empty
headers map; it never raises an exception into the script (the result is
always the ok constructor, never an abort). -/
theorem transport_failure_degraded_response (url method e : String)
    (t : String → String → TransportOutcome)
    (hm : method = ("GET") ∨ method = ("POST"))
    (ht : t method url = TransportOutcome.failure e) :
    send_request_async url method t =
      Except.ok
        { status_code := 500
          body := ("Internal Server Error")
          content_type := ("text/plain")
          headers := emptyHeaders } := by
  rcases hm with h | h <;> subst h <;> simp [send_request_async, ht, buildResponse]

/-- Witness for C3 amended: a concrete failing GET request degrades to
the synthetic 500 response. -/
theorem transport_failure_degraded_response_witness :
    send_request_async ("http://example.com") ("GET")
        (fun _ _ => TransportOutcome.failure ("dns error")) =
      Except.ok
        { status_code := 500
          body := ("Internal Server Error")
          content_type := ("text/plain")
          headers := emptyHeaders } :=
  transport_failure_degraded_response ("http://example.com") ("GET") ("dns error")
    (fun _ _ => TransportOutcome.failure ("dns error")) (Or.inl rfl) rfl

/-- C4 counterexample: host code other than the result-extraction step
does write lines to standard output during the run: every call of the
request capability prints the fixed line of src/main.rs line 171, so the
claim that no other host code writes lines to standard output is false. -/
theorem request_handler_writes_stdout :
    send_request_handler_stdout ("http://example.com") ("GET")
        (fun _ _ => TransportOutcome.success 200 [] (some (""))) =
      [("request handler called.")] ∧
    (("request handler called.") :: ([] : List String)) ≠ ([] : List String) := by
  exact ⟨rfl, by decide⟩

/-- C4 amended: the result-extraction step prints exactly one line on
standard output (the result string or the unresolved-promise
diagnostic); but other host code also writes lines to standard output
during the run: every invocation of the request capability prints at
least one line, and every invocation of the logging capability writes
its line to standard output. -/
theorem stdout_lines_per_step :
    (∀ r : Option String, (result_extraction_stdout r).length = 1) ∧
    (∀ url method t, send_request_handler_stdout url method t ≠ ([] : List String)) ∧
    (∀ m : String, (log_handler m).1.1 = HostStream.stdout) := by
  refine ⟨?_, ?_, ?_⟩
  · intro r
    cases r <;> rfl
  · intro url method t
    simp [send_request_handler_stdout]
  · intro m
    rfl

/-- C6: a three-element argument vector naming a verb other than
discover (so omitting the URL) makes argument construction fail and the
process exit with code 1 printing the usage message, while the discover
verb with no URL passes argument validation, yielding a Params with no
url. -/
theorem missing_url_rejected_discover_accepted (prog file opt : String)
    (h : opt ≠ ("--discover")) :
    mainModel [prog, file, opt] = MainOutcome.exited 1 usageMsg ∧
    Params.new [prog, file, ("--discover")] =
      Except.ok { filename := file, option := ("--discover"), url := none } := by
  constructor
  · simp [mainModel, Params.new, h]
  · rfl

/-- Witness for C6: the search verb without a URL exits with code 1, and
discover without a URL parses successfully. -/
theorem missing_url_rejected_discover_accepted_witness :
    mainModel [("chouten"), ("plugin.js"), ("--search")] =
      MainOutcome.exited 1 usageMsg ∧
    Params.new [("chouten"), ("plugin.js"), ("--discover")] =
      Except.ok { filename := ("plugin.js"), option := ("--discover"), url := none } :=
  missing_url_rejected_discover_accepted ("chouten") ("plugin.js") ("--search")
    (by decide)

/-- C7: for each of the five URL-requiring verbs (those the spec table
specMethodName covers), the generated call expression is exactly the
method name, followed by an opening parenthesis, the URL spliced
literally between two single-quote characters with no escaping, and a
closing parenthesis; the URL is spliced exactly once. -/
theorem dispatch_splices_url_once (opt m u f : String)
    (h : specMethodName opt = some m) :
    dispatch { filename := f, option := opt, url := some u } =
      Except.ok (m ++ ("(") ++ squote ++ u ++ squote ++ (")")) := by
  unfold specMethodName at h
  split at h <;> simp_all <;> subst h <;> rfl

/-- Witness for C7: the search verb with a concrete URL generates the
expected call expression. -/
theorem dispatch_splices_url_once_witness :
    dispatch { filename := ("plugin.js"), option := ("--search"),
               url := some ("http://example.com/q") } =
      Except.ok (("search") ++ ("(") ++ squote ++ ("http://example.com/q") ++ squote ++ (")")) :=
  dispatch_splices_url_once ("--search") ("search") ("http://example.com/q")
    ("plugin.js") rfl

/-- Helper for C8: folding the insertion step over a header list, started
from an arbitrary map, answers each query with the last value seen for
that key in the list, falling back to the initial map. -/
theorem buildHeaders_foldl_eq (l : List (String × String))
    (m : String → Option String) (k : String) :
    l.foldl (fun m p => insertHeader m p.1 p.2) m k =
      (match specLastValueSeen l k with
       | some v => some v
       | none => m k) := by
  induction l generalizing m with
  | nil => rfl
  | cons p t ih =>
    simp only [List.foldl_cons, specLastValueSeen]
    rw [ih]
    cases hlast : specLastValueSeen t k with
    | some v => rfl
    | none =>
      simp only [insertHeader]
      by_cases h : p.1 = k
      · subst h
        simp
      · have h1 : (k == p.1) = false := by
          rw [beq_eq_false_iff_ne]
          exact fun e => h e.symm
        have h2 : (p.1 == k) = false := by
          rw [beq_eq_false_iff_ne]
          exact h
        simp [h1, h2]

/-- Helper for C8: a key that occurs in the transport header list has a
last value seen. -/
theorem specLastValueSeen_isSome_of_mem (l : List (String × String))
    (k v : String) (hmem : (k, v) ∈ l) :
    (specLastValueSeen l k).isSome = true := by
  induction l with
  | nil => cases hmem
  | cons p t ih =>
    simp only [specLastValueSeen]
    cases hlast : specLastValueSeen t k with
    | some w => rfl
    | none =>
      rcases List.mem_cons.mp hmem with heq | ht
      · subst heq
        simp
      · have := ih ht
        rw [hlast] at this
        cases this

/-- C8: the headers map built by the header-collection loop answers every
key with the last value seen for that key in the transport header list
(so duplicate header names collapse to the last value, and keys are
unique because the map is a function), and every header name occurring
in the transport list is present in the map. -/
theorem headers_last_write_wins (l : List (String × String)) :
    (∀ k, buildHeaders l k = specLastValueSeen l k) ∧
    (∀ k v, (k, v) ∈ l → (buildHeaders l k).isSome = true) := by
  have hmain : ∀ k, buildHeaders l k = specLastValueSeen l k := by
    intro k
    unfold buildHeaders
    rw [buildHeaders_foldl_eq]
    cases specLastValueSeen l k <;> rfl
  refine ⟨hmain, ?_⟩
  intro k v hmem
  rw [hmain k]
  exact specLastValueSeen_isSome_of_mem l k v hmem

/-- Witness for C8: a duplicated header name collapses to the last value
seen, and the duplicated key is present in the map. -/
theorem headers_last_write_wins_witness :
    buildHeaders [(("a"), ("1")), (("b"), ("2")), (("a"), ("3"))] ("a") =
      specLastValueSeen [(("a"), ("1")), (("b"), ("2")), (("a"), ("3"))] ("a") ∧
    (buildHeaders [(("a"), ("1")), (("b"), ("2")), (("a"), ("3"))] ("a")).isSome = true ∧
    specLastValueSeen [(("a"), ("1")), (("b"), ("2")), (("a"), ("3"))] ("a") = some ("3") :=
  ⟨(headers_last_write_wins [(("a"), ("1")), (("b"), ("2")), (("a"), ("3"))]).1 ("a"),
   (headers_last_write_wins [(("a"), ("1")), (("b"), ("2")), (("a"), ("3"))]).2
     ("a") ("1") (by decide),
   by decide⟩

/-- Helper for C10: when the url field is populated, the verb dispatch
never reaches a missing-URL exit branch. -/
theorem dispatch_no_url_error (p : Params) (a : String) (ha : p.url = some a) :
    ∀ s ∈ urlRequiredMessages, dispatch p ≠ Except.error s := by
  intro s hs
  simp only [urlRequiredMessages, List.mem_cons, List.not_mem_nil, or_false] at hs
  unfold dispatch
  rw [ha]
  split <;>
    first
      | (simp
         done)
      | (rcases hs with rfl | rfl | rfl | rfl | rfl <;> simp)

/-- C10: every Params value successfully returned by Params::new with an
option other than discover has a populated url field, and consequently
for such Params none of the missing-URL exit branches of the verb
dispatch in run can be reached. -/
theorem params_nondiscover_has_url (args : List String) (p : Params)
    (hok : Params.new args = Except.ok p) (hopt : p.option ≠ ("--discover")) :
    p.url.isSome = true ∧
    ∀ s ∈ urlRequiredMessages, dispatch p ≠ Except.error s := by
  unfold Params.new at hok
  split at hok
  · exact absurd hok (by simp)
  · split at hok
    · exact absurd hok (by simp)
    · rename_i hlen hcond
      simp only [Except.ok.injEq] at hok
      subst hok
      simp only [Bool.and_eq_true, bne_iff_ne, ne_eq, not_and, Decidable.not_not] at hcond
      have hx : ((args.get? 2).getD ("")) ≠ ("--discover") := hopt
      have hlen4 : args.length = 4 := by
        by_cases hd : ((args.get? 2).getD ("")) = ("--discover")
        · exact absurd hd hx
        · exact hcond hd
      have h3 : 3 < args.length := by omega
      obtain ⟨a, ha⟩ : ∃ a, args.get? 3 = some a := by
        cases hg : args.get? 3 with
        | some a => exact ⟨a, rfl⟩
        | none =>
          rw [List.get?_eq_none] at hg
          omega
      constructor
      · show (args.get? 3).isSome = true
        rw [ha]
        rfl
      · exact dispatch_no_url_error _ a ha

/-- Witness for C10: a concrete successful parse of a search invocation
has a populated url and reaches no missing-URL branch. -/
theorem params_nondiscover_has_url_witness :
    ({ filename := ("plugin.js"), option := ("--search"),
       url := some ("http://example.com") } : Params).url.isSome = true ∧
    ∀ s ∈ urlRequiredMessages,
      dispatch { filename := ("plugin.js"), option := ("--search"),
                 url := some ("http://example.com") } ≠ Except.error s :=
  params_nondiscover_has_url
    [("chouten"), ("plugin.js"), ("--search"), ("http://example.com")]
    { filename := ("plugin.js"), option := ("--search"),
      url := some ("http://example.com") }
    rfl (by decide)
